import Mathlib

/-!
Verification of the sagikazarmark/registry-auth token server.

The Go sources embedded here are `auth/authn.go` (the
`PasswordAuthenticator` interface and `ErrAuthenticationFailed`), the
`main` wiring of the server binary, and the `config` package
(`RegisterPasswordAuthenticatorFactory`, `PasswordAuthenticator.UnmarshalYAML`,
`userAuthenticator.New`, `userAuthenticator.Validate`).  Components whose
implementation lives elsewhere in the repository (the in-memory user
authenticator, the refresh-token authenticator, the authorizer, the logging
token-service decorator, the generic factory registry) are modelled from the
specification; each such definition says so in its doc comment.
-/

namespace RegistryAuth

/-- An authenticated identity: stable identifier, enabled flag and string
attributes (spec section 3, Subject). -/
structure Subject where
  id : String
  enabled : Bool
  attrs : List (String × String)
deriving DecidableEq, Repr

/-- A requested or granted permission: resource type, resource name and a
list of actions (spec section 3, Scope). -/
structure Scope where
  resourceType : String
  resourceName : String
  actions : List String
deriving DecidableEq, Repr

/-- The error taxonomy of the authentication pipeline.
`authenticationFailed` embeds `auth.ErrAuthenticationFailed`, a single
process-wide error value, so two occurrences of it are the same value. -/
inductive AuthError where
  | authenticationFailed
  | invalidRequest
  | internalError (msg : String)
deriving DecidableEq, Repr

/-- A user entry as decoded from configuration
(`config.user` in the source). -/
structure ConfigUser where
  enabled : Bool
  username : String
  passwordHash : String
  attrs : List (String × String)
deriving DecidableEq, Repr

/-- The configuration of the in-memory password authenticator
(`config.userAuthenticator`): a list of user entries. -/
structure UserAuthenticatorConfig where
  entries : List ConfigUser
deriving DecidableEq, Repr

/-- A user entry of the in-memory authenticator (`authn.User`). -/
structure User where
  enabled : Bool
  username : String
  passwordHash : String
  attrs : List (String × String)
deriving DecidableEq, Repr

/-- `userAuthenticator.New`: maps every configuration entry to an
`authn.User` and returns the authenticator together with a nil error
(the Go function literally ends in `return authn.NewUserAuthenticator(entries), nil`).
The authenticator value is its user list; `authn.NewUserAuthenticator`
(not among the embedded sources) is modelled from the spec as storing the
fixed user list. -/
def UserAuthenticatorConfig.new (c : UserAuthenticatorConfig) :
    List User × Option String :=
  (c.entries.map (fun v =>
    { enabled := v.enabled
      username := v.username
      passwordHash := v.passwordHash
      attrs := v.attrs }), none)

/-- The error message of `userAuthenticator.Validate` for an entry with an
empty username. -/
def validateUsernameMsg (i : Nat) : String :=
  "user authenticator: entry[" ++ toString i ++ "]: username is required"

/-- The error message of `userAuthenticator.Validate` for an entry with an
empty password hash. -/
def validateHashMsg (i : Nat) : String :=
  "user authenticator: entry[" ++ toString i ++ "]: password hash is required"

/-- The loop of `userAuthenticator.Validate`: walks the entries with their
index, returning the first per-field error, or none. -/
def validateEntries : Nat → List ConfigUser → Option String
  | _, [] => none
  | i, u :: rest =>
    if u.username = "" then some (validateUsernameMsg i)
    else if u.passwordHash = "" then some (validateHashMsg i)
    else validateEntries (i + 1) rest

/-- `userAuthenticator.Validate`: per-field validation of the configured
user entries. -/
def UserAuthenticatorConfig.validate (c : UserAuthenticatorConfig) :
    Option String :=
  validateEntries 0 c.entries

/-- Modelled from the spec: the in-memory `authn.UserAuthenticator`
(constructed by `authn.NewUserAuthenticator`, whose implementation is not
among the embedded sources).  It looks the username up in its fixed user
list, verifies the password against the stored hash, checks the enabled
flag, and answers `ErrAuthenticationFailed` for an unknown user, a wrong
password and a disabled account alike.  The password-hash check (bcrypt in
the repository) is abstracted as the function `verify hash password`. -/
def userAuthenticate (verify : String → String → Bool) (users : List User)
    (username password : String) : Except AuthError Subject :=
  match users.find? (fun u => u.username == username) with
  | none => .error .authenticationFailed
  | some u =>
    if verify u.passwordHash password then
      if u.enabled then
        .ok { id := u.username, enabled := u.enabled, attrs := u.attrs }
      else .error .authenticationFailed
    else .error .authenticationFailed

/-- Modelled from the spec: the `authn.SubjectRepository` capability of the
in-memory authenticator — by-identifier lookup of the live Subject in the
fixed user list. -/
def getSubject (users : List User) (id : String) : Option Subject :=
  (users.find? (fun u => u.username == id)).map (fun u =>
    { id := u.username, enabled := u.enabled, attrs := u.attrs })

/-- A refresh token, per spec section 6: it carries at minimum the subject
identifier; validity (signature, expiry) is abstracted as a flag. -/
structure RefreshToken where
  subjectId : String
  valid : Bool
deriving DecidableEq, Repr

/-- Modelled from the spec: `IssueRefreshToken(Subject) → signedToken`,
binding no scopes, carrying the subject identifier. -/
def issueRefreshToken (s : Subject) : RefreshToken :=
  { subjectId := s.id, valid := true }

/-- Modelled from the spec: the `authn.RefreshTokenVerifier` capability —
validates the token and extracts the owning subject identifier. -/
def verifyRefreshToken (t : RefreshToken) : Except AuthError String :=
  if t.valid then .ok t.subjectId else .error .authenticationFailed

/-- Modelled from the spec: `authn.RefreshTokenAuthenticator` as built by
`authn.NewRefreshTokenAuthenticator(verifier, repository)` — verifies the
token, re-resolves the live Subject from the repository, and fails with
`ErrAuthenticationFailed` if verification fails or the identifier no longer
resolves to an enabled Subject. -/
def refreshTokenAuthenticate (users : List User) (t : RefreshToken) :
    Except AuthError Subject :=
  match verifyRefreshToken t with
  | .error e => .error e
  | .ok id =>
    match getSubject users id with
    | none => .error .authenticationFailed
    | some s =>
      if s.enabled then .ok s else .error .authenticationFailed

/-- Modelled from the spec: `Authorizer.Authorize(Subject, requestedScopes)`
— returns the subset of the requested scopes the subject is permitted.  The
pluggable policy is abstracted as the predicate
`allowed subject resourceType resourceName action`; for each requested scope
the granted actions are the allowed subset, and a scope whose actions all
drop out is dropped entirely. -/
def authorize (allowed : Subject → String → String → String → Bool)
    (subject : Subject) (requested : List Scope) : List Scope :=
  (requested.map (fun s =>
    { s with actions :=
        s.actions.filter (allowed subject s.resourceType s.resourceName) })).filter
    (fun s => !s.actions.isEmpty)

/-- A factory registry: a name-keyed table of constructors
(`config.factoryRegistry`).  A Go nil factory argument is modelled as
`Option.none` at the call sites. -/
structure FactoryRegistry (F : Type) where
  factories : List (String × F)
deriving Repr

/-- Modelled from the spec: `factoryRegistry.GetFactory` — a pure lookup
returning the constructor and whether it was found. -/
def FactoryRegistry.getFactory (r : FactoryRegistry F) (name : String) :
    Option F :=
  (r.factories.find? (fun p => p.1 == name)).map (fun p => p.2)

/-- Modelled from the spec: `factoryRegistry.RegisterFactory` — adds a
constructor under a unique name, returning an error if the name is already
registered or the factory is nil. -/
def FactoryRegistry.registerFactory (r : FactoryRegistry F) (name : String)
    (factory : Option F) : Except String (FactoryRegistry F) :=
  match factory with
  | none => .error ("factory is nil: " ++ name)
  | some f =>
    if (r.getFactory name).isSome then
      .error ("factory already registered: " ++ name)
    else .ok { factories := r.factories ++ [(name, f)] }

/-- The outcome of `RegisterPasswordAuthenticatorFactory`, which panics on
a registration error. -/
inductive RegisterOutcome (F : Type) where
  | panicked (msg : String)
  | registered (r : FactoryRegistry F)
deriving Repr

/-- `RegisterPasswordAuthenticatorFactory`: registers the factory in the
process-wide registry and panics if `RegisterFactory` returns an error. -/
def registerPasswordAuthenticatorFactory (r : FactoryRegistry F)
    (name : String) (factory : Option F) : RegisterOutcome F :=
  match r.registerFactory name factory with
  | .error e =>
    .panicked ("registering password authenticator factory: " ++ e)
  | .ok r2 => .registered r2

/-- The factory a `config.PasswordAuthenticator` field holds after YAML
decoding: either a factory resolved from the registry, or the
`unknownFactoryType` placeholder recording the component kind and the
unresolved type name. -/
inductive ResolvedFactory (F : Type) where
  | known (f : F)
  | unknownType (factoryType typ : String)
deriving Repr

/-- Modelled from the spec: `unknownFactoryType.New` — surfaces the unknown
component type as a typed configuration error when construction is
attempted. -/
def ResolvedFactory.newComponent (build : F → Except String A) :
    ResolvedFactory F → Except String A
  | .known f => build f
  | .unknownType factoryType typ =>
    .error ("unknown " ++ factoryType ++ " type: " ++ typ)

/-- `PasswordAuthenticator.UnmarshalYAML` after the raw node has been
decoded into `rawConfig`: looks the type name up in the registry; when it
is absent, stores the `unknownFactoryType` placeholder and returns without
error; when present, decodes the inner config into the factory
(`decodeCfg`, which may fail) and stores the result. -/
def unmarshalPasswordAuthenticator (r : FactoryRegistry F) (typ : String)
    (decodeCfg : F → Except String F) : Except String (ResolvedFactory F) :=
  match r.getFactory typ with
  | none => .ok (.unknownType "password authenticator" typ)
  | some f =>
    match decodeCfg f with
    | .error e => .error e
    | .ok f2 => .ok (.known f2)

/-- A token request as seen by the token service: the subject has already
been authenticated upstream of the fields we need for logging. -/
structure TokenRequest where
  username : String
  scopes : List Scope
deriving DecidableEq, Repr

/-- A token response: the signed access token, optional refresh token and
the granted scopes. -/
structure TokenResponse where
  accessToken : String
  refreshToken : Option String
  grantedScopes : List Scope
deriving DecidableEq, Repr

/-- The log line kind recorded by the logging decorator. -/
def authErrorKind : AuthError → String
  | .authenticationFailed => "authentication failed"
  | .invalidRequest => "invalid request"
  | .internalError _ => "internal error"

/-- Modelled from the spec: `auth.LoggerTokenService` — wraps a
`TokenService`, records the request, the outcome kind and the requested
versus granted scopes, and delegates the call to the wrapped service.  The
result is the wrapped service's result paired with the log lines. -/
def loggerTokenService (service : TokenRequest → Except AuthError TokenResponse)
    (req : TokenRequest) : Except AuthError TokenResponse × List String :=
  let intro := "token request: subject=" ++ req.username
  match service req with
  | .error e =>
    (.error e, [intro, "token request failed: " ++ authErrorKind e])
  | .ok resp =>
    (.ok resp,
      [intro,
       "token issued: scopes requested=" ++ toString req.scopes.length ++
         " granted=" ++ toString resp.grantedScopes.length])

/-- The steps of `main`, in program order. -/
inductive Step where
  | realmCheck
  | openConfig
  | decodeConfig
  | validateConfig
  | newPasswordAuthenticator
  | newAccessTokenIssuer
  | newRefreshTokenIssuer
  | refreshVerifierCheck
  | subjectRepositoryCheck
  | newAuthorizer
  | listen
deriving DecidableEq, Repr

/-- The outside conditions `main` runs against: for each fallible step,
whether it fails, and whether the constructed components satisfy the two
capability checks (Go type assertions in `main`). -/
structure MainWorld where
  realmEmpty : Bool
  openConfigErr : Bool
  decodeConfigErr : Bool
  validateErr : Bool
  newPasswordAuthenticatorErr : Bool
  newAccessTokenIssuerErr : Bool
  newRefreshTokenIssuerErr : Bool
  isRefreshTokenVerifier : Bool
  isSubjectRepository : Bool
  newAuthorizerErr : Bool
deriving DecidableEq, Repr

/-- The observable outcome of `main`: `os.Exit(1)` at a step, or reaching
`http.ListenAndServe`. -/
inductive MainOutcome where
  | exitedAt (s : Step)
  | listening
deriving DecidableEq, Repr

/-- `main`, step by step: each fallible step logs and calls `os.Exit(1)` on
failure, otherwise control falls through to the next step, ending at
`http.ListenAndServe`. -/
def runMain (w : MainWorld) : MainOutcome :=
  if w.realmEmpty then .exitedAt .realmCheck
  else if w.openConfigErr then .exitedAt .openConfig
  else if w.decodeConfigErr then .exitedAt .decodeConfig
  else if w.validateErr then .exitedAt .validateConfig
  else if w.newPasswordAuthenticatorErr then .exitedAt .newPasswordAuthenticator
  else if w.newAccessTokenIssuerErr then .exitedAt .newAccessTokenIssuer
  else if w.newRefreshTokenIssuerErr then .exitedAt .newRefreshTokenIssuer
  else if !w.isRefreshTokenVerifier then .exitedAt .refreshVerifierCheck
  else if !w.isSubjectRepository then .exitedAt .subjectRepositoryCheck
  else if w.newAuthorizerErr then .exitedAt .newAuthorizer
  else .listening

/-- The steps `main` executes before exiting or listening, in order. -/
def mainTrace (w : MainWorld) : List Step :=
  if w.realmEmpty then [.realmCheck]
  else if w.openConfigErr then [.realmCheck, .openConfig]
  else if w.decodeConfigErr then [.realmCheck, .openConfig, .decodeConfig]
  else if w.validateErr then
    [.realmCheck, .openConfig, .decodeConfig, .validateConfig]
  else if w.newPasswordAuthenticatorErr then
    [.realmCheck, .openConfig, .decodeConfig, .validateConfig,
     .newPasswordAuthenticator]
  else if w.newAccessTokenIssuerErr then
    [.realmCheck, .openConfig, .decodeConfig, .validateConfig,
     .newPasswordAuthenticator, .newAccessTokenIssuer]
  else if w.newRefreshTokenIssuerErr then
    [.realmCheck, .openConfig, .decodeConfig, .validateConfig,
     .newPasswordAuthenticator, .newAccessTokenIssuer, .newRefreshTokenIssuer]
  else if !w.isRefreshTokenVerifier then
    [.realmCheck, .openConfig, .decodeConfig, .validateConfig,
     .newPasswordAuthenticator, .newAccessTokenIssuer, .newRefreshTokenIssuer,
     .refreshVerifierCheck]
  else if !w.isSubjectRepository then
    [.realmCheck, .openConfig, .decodeConfig, .validateConfig,
     .newPasswordAuthenticator, .newAccessTokenIssuer, .newRefreshTokenIssuer,
     .refreshVerifierCheck, .subjectRepositoryCheck]
  else if w.newAuthorizerErr then
    [.realmCheck, .openConfig, .decodeConfig, .validateConfig,
     .newPasswordAuthenticator, .newAccessTokenIssuer, .newRefreshTokenIssuer,
     .refreshVerifierCheck, .subjectRepositoryCheck, .newAuthorizer]
  else
    [.realmCheck, .openConfig, .decodeConfig, .validateConfig,
     .newPasswordAuthenticator, .newAccessTokenIssuer, .newRefreshTokenIssuer,
     .refreshVerifierCheck, .subjectRepositoryCheck, .newAuthorizer, .listen]

/-- Claim C10: for every `userAuthenticator` configuration value, including
one with an empty entries list, `userAuthenticator.New` returns a nil
error — constructing the in-memory password authenticator from decoded
configuration can never fail at this step. -/
theorem claim_C10 (c : UserAuthenticatorConfig) : c.new.2 = none := rfl

/-- Claim C8: the logging-decorated token service returns exactly the same
result (token response or error) as the wrapped service on the same
request; the decorator only records inputs and outcomes. -/
theorem claim_C8 (service : TokenRequest → Except AuthError TokenResponse)
    (req : TokenRequest) :
    (loggerTokenService service req).1 = service req := by
  unfold loggerTokenService
  cases h : service req <;> simp [h]

/-- Claim C5: if the refresh-token-verifier capability check or the
subject-repository capability check of `main` fails, the process exits at
startup and never reaches the HTTP listener. -/
theorem claim_C5 (w : MainWorld)
    (h : w.isRefreshTokenVerifier = false ∨ w.isSubjectRepository = false) :
    runMain w ≠ MainOutcome.listening ∧ Step.listen ∉ mainTrace w := by
  rcases w with ⟨r, o, d, v, pa, ai, ri, rv, sr, na⟩
  revert h
  cases r <;> cases o <;> cases d <;> cases v <;> cases pa <;>
    cases ai <;> cases ri <;> cases rv <;> cases sr <;> cases na <;> decide

/-- The world in which every startup step succeeds except that the refresh
token issuer lacks the verifier capability. -/
def noVerifierWorld : MainWorld :=
  { realmEmpty := false
    openConfigErr := false
    decodeConfigErr := false
    validateErr := false
    newPasswordAuthenticatorErr := false
    newAccessTokenIssuerErr := false
    newRefreshTokenIssuerErr := false
    isRefreshTokenVerifier := false
    isSubjectRepository := true
    newAuthorizerErr := false }

/-- Witness for claim C5 at a concrete world. -/
theorem claim_C5_witness :
    runMain noVerifierWorld ≠ MainOutcome.listening ∧
      Step.listen ∉ mainTrace noVerifierWorld :=
  claim_C5 noVerifierWorld (Or.inl rfl)

/-- Appending a fresh binding to a registry makes it resolvable. -/
theorem getFactory_append {F : Type} (l : List (String × F)) (name : String)
    (f : F) (h : FactoryRegistry.getFactory ⟨l⟩ name = none) :
    FactoryRegistry.getFactory ⟨l ++ [(name, f)]⟩ name = some f := by
  induction l with
  | nil => simp [FactoryRegistry.getFactory]
  | cons hd tl ih =>
    unfold FactoryRegistry.getFactory at h ⊢
    simp only [List.cons_append, List.find?_cons] at h ⊢
    cases hp : (hd.1 == name) with
    | true => simp [hp] at h
    | false =>
      simp only [hp] at h ⊢
      exact ih h

/-- Claim C6: registering a password authenticator factory under an
already-registered name, or with a nil factory, panics; registering a fresh
name with a non-nil factory succeeds and makes the factory resolvable under
that name. -/
theorem claim_C6 {F : Type} (r : FactoryRegistry F) (name : String)
    (factory : Option F) :
    ((r.getFactory name).isSome = true →
       ∃ msg, registerPasswordAuthenticatorFactory r name factory =
         .panicked msg) ∧
    (factory = none →
       ∃ msg, registerPasswordAuthenticatorFactory r name factory =
         .panicked msg) ∧
    (∀ f, factory = some f → r.getFactory name = none →
       registerPasswordAuthenticatorFactory r name factory =
         .registered ⟨r.factories ++ [(name, f)]⟩ ∧
       FactoryRegistry.getFactory ⟨r.factories ++ [(name, f)]⟩ name = some f) := by
  refine ⟨?_, ?_, ?_⟩
  · intro hdup
    unfold registerPasswordAuthenticatorFactory FactoryRegistry.registerFactory
    cases factory with
    | none => exact ⟨_, rfl⟩
    | some f => simp [hdup]
  · rintro rfl
    exact ⟨_, rfl⟩
  · rintro f rfl hfresh
    refine ⟨?_, getFactory_append r.factories name f hfresh⟩
    unfold registerPasswordAuthenticatorFactory FactoryRegistry.registerFactory
    simp [hfresh]

/-- Witness for claim C6: a concrete registry with one entry. -/
theorem claim_C6_witness :
    ((FactoryRegistry.getFactory ⟨[("user", 0)]⟩ "user").isSome = true →
       ∃ msg, registerPasswordAuthenticatorFactory ⟨[("user", 0)]⟩ "user"
         (some 1) = .panicked msg) ∧
    ((some 1 : Option Nat) = none →
       ∃ msg, registerPasswordAuthenticatorFactory ⟨[("user", 0)]⟩ "user"
         (some 1) = .panicked msg) ∧
    (∀ f, (some 1 : Option Nat) = some f →
       FactoryRegistry.getFactory ⟨[("user", 0)]⟩ "user" = none →
       registerPasswordAuthenticatorFactory ⟨[("user", 0)]⟩ "user" (some 1) =
         .registered ⟨[("user", 0)] ++ [("user", f)]⟩ ∧
       FactoryRegistry.getFactory ⟨[("user", 0)] ++ [("user", f)]⟩ "user" =
         some f) :=
  claim_C6 ⟨[("user", 0)]⟩ "user" (some 1)

/-- Claim C7: when a configuration names a component type absent from the
registry, `UnmarshalYAML` succeeds (no error, no panic), storing the
`unknownFactoryType` placeholder, and the unknown type surfaces later as a
typed "unknown component type" configuration error when the factory is
used. -/
theorem claim_C7 {F A : Type} (r : FactoryRegistry F) (typ : String)
    (decodeCfg : F → Except String F) (build : F → Except String A)
    (h : r.getFactory typ = none) :
    unmarshalPasswordAuthenticator r typ decodeCfg =
      .ok (.unknownType "password authenticator" typ) ∧
    (ResolvedFactory.unknownType "password authenticator" typ).newComponent
        build =
      .error ("unknown password authenticator type: " ++ typ) := by
  constructor
  · unfold unmarshalPasswordAuthenticator
    simp [h]
  · rfl

/-- Witness for claim C7: an empty registry and the type name "ldap". -/
theorem claim_C7_witness :
    unmarshalPasswordAuthenticator (F := Nat) ⟨[]⟩ "ldap" Except.ok =
      .ok (.unknownType "password authenticator" "ldap") ∧
    (ResolvedFactory.unknownType "password authenticator"
        "ldap").newComponent (A := Nat) Except.ok =
      .error ("unknown password authenticator type: " ++ "ldap") :=
  claim_C7 ⟨[]⟩ "ldap" Except.ok Except.ok rfl

/-- Claim C1: every scope granted by the authorizer appears in the
requested scopes with an equal or narrower action set — no scope or action
is added that was not requested. -/
theorem claim_C1 (allowed : Subject → String → String → String → Bool)
    (subject : Subject) (requested : List Scope) (g : Scope)
    (hg : g ∈ authorize allowed subject requested) :
    ∃ r ∈ requested, g.resourceType = r.resourceType ∧
      g.resourceName = r.resourceName ∧ ∀ a ∈ g.actions, a ∈ r.actions := by
  unfold authorize at hg
  rw [List.mem_filter] at hg
  obtain ⟨hmem, -⟩ := hg
  rw [List.mem_map] at hmem
  obtain ⟨r, hr, rfl⟩ := hmem
  exact ⟨r, hr, rfl, rfl, fun a ha => List.mem_of_mem_filter ha⟩

/-- A concrete subject for witnesses. -/
def aliceSubject : Subject :=
  { id := "alice", enabled := true, attrs := [] }

/-- A concrete scope for witnesses. -/
def pullScope : Scope :=
  { resourceType := "repository", resourceName := "foo", actions := ["pull"] }

/-- Witness for claim C1: a permit-all policy over a single requested
scope grants that scope, which is a subset of the request. -/
theorem claim_C1_witness :
    ∃ r ∈ [pullScope], pullScope.resourceType = r.resourceType ∧
      pullScope.resourceName = r.resourceName ∧
      ∀ a ∈ pullScope.actions, a ∈ r.actions :=
  claim_C1 (fun _ _ _ _ => true) aliceSubject [pullScope] pullScope
    (by decide)

/-- Claim C2: redeeming a refresh token issued for subject S yields a
subject with S's identifier when the repository still resolves S's
identifier to an enabled subject; if that subject has been disabled in the
meantime, redemption fails with `ErrAuthenticationFailed`. -/
theorem claim_C2 (users : List User) (s0 s : Subject)
    (hres : getSubject users s0.id = some s) :
    (s.enabled = true →
       refreshTokenAuthenticate users (issueRefreshToken s0) = .ok s ∧
       s.id = s0.id) ∧
    (s.enabled = false →
       refreshTokenAuthenticate users (issueRefreshToken s0) =
         .error .authenticationFailed) := by
  have hid : s.id = s0.id := by
    unfold getSubject at hres
    obtain ⟨u, hu, hs⟩ := Option.map_eq_some'.mp hres
    have hbeq := List.find?_some hu
    rw [← hs]
    exact eq_of_beq hbeq
  have hrun : refreshTokenAuthenticate users (issueRefreshToken s0) =
      if s.enabled then .ok s else .error .authenticationFailed := by
    unfold refreshTokenAuthenticate verifyRefreshToken issueRefreshToken
    simp [hres]
  constructor
  · intro he
    rw [hrun, if_pos he]
    exact ⟨rfl, hid⟩
  · intro he
    rw [hrun, if_neg (by simp [he])]

/-- A concrete user list for witnesses: alice enabled, bob disabled. -/
def witnessUsers : List User :=
  [{ enabled := true, username := "alice", passwordHash := "h1", attrs := [] },
   { enabled := false, username := "bob", passwordHash := "h2", attrs := [] }]

/-- The live subject for bob in `witnessUsers`, disabled. -/
def bobSubject : Subject :=
  { id := "bob", enabled := false, attrs := [] }

/-- Witness for claim C2: a token issued for the (now disabled) bob is
refused on redemption. -/
theorem claim_C2_witness :
    bobSubject.enabled = false ∧
      refreshTokenAuthenticate witnessUsers (issueRefreshToken bobSubject) =
        .error .authenticationFailed :=
  ⟨rfl, (claim_C2 witnessUsers bobSubject bobSubject (by decide)).2 rfl⟩

/-- Claim C3: authenticating with the correct password of an enabled
account returns a Subject carrying that username; a wrong password or a
disabled account yields `ErrAuthenticationFailed`. -/
theorem claim_C3 (verify : String → String → Bool) (users : List User)
    (username password : String) (u : User)
    (hfind : users.find? (fun v => v.username == username) = some u) :
    (verify u.passwordHash password = true → u.enabled = true →
       userAuthenticate verify users username password =
         .ok { id := username, enabled := true, attrs := u.attrs }) ∧
    (verify u.passwordHash password = false →
       userAuthenticate verify users username password =
         .error .authenticationFailed) ∧
    (u.enabled = false →
       userAuthenticate verify users username password =
         .error .authenticationFailed) := by
  have hbeq := List.find?_some hfind
  have huser : u.username = username := eq_of_beq hbeq
  unfold userAuthenticate
  rw [hfind]
  refine ⟨?_, ?_, ?_⟩
  · intro hv he
    simp [hv, he, huser]
  · intro hv
    simp [hv]
  · intro he
    cases hv : verify u.passwordHash password <;> simp [hv, he]

/-- The hash check used by witnesses: password p matches stored hash
"h" ++ p. -/
def witnessVerify (hash password : String) : Bool :=
  hash == "h" ++ password

/-- Witness for claim C3: alice (enabled, hash "h1") authenticates with
password "1", fails with password "2", and the disabled bob fails with his
correct password. -/
theorem claim_C3_witness :
    userAuthenticate witnessVerify witnessUsers "alice" "1" =
      .ok { id := "alice", enabled := true, attrs := [] } ∧
    userAuthenticate witnessVerify witnessUsers "alice" "2" =
      .error .authenticationFailed ∧
    userAuthenticate witnessVerify witnessUsers "bob" "2" =
      .error .authenticationFailed :=
  ⟨(claim_C3 witnessVerify witnessUsers "alice" "1"
      { enabled := true, username := "alice", passwordHash := "h1",
        attrs := [] } (by decide)).1 (by decide) rfl,
   (claim_C3 witnessVerify witnessUsers "alice" "2"
      { enabled := true, username := "alice", passwordHash := "h1",
        attrs := [] } (by decide)).2.1 (by decide),
   (claim_C3 witnessVerify witnessUsers "bob" "2"
      { enabled := false, username := "bob", passwordHash := "h2",
        attrs := [] } (by decide)).2.2 rfl⟩

/-- The only error `userAuthenticate` ever returns is
`ErrAuthenticationFailed`. -/
theorem userAuthenticate_error_eq (verify : String → String → Bool)
    (users : List User) (username password : String) (e : AuthError)
    (h : userAuthenticate verify users username password = .error e) :
    e = .authenticationFailed := by
  unfold userAuthenticate at h
  split at h
  · cases h
    rfl
  · split at h
    · split at h
      · cases h
      · cases h
        rfl
    · cases h
      rfl

/-- Claim C4: the three failing cases of `Authenticate` — unknown user,
wrong password, disabled account — all return the identical
`ErrAuthenticationFailed` value, and more generally any two failing calls
return equal error values, so a caller cannot tell the cases apart. -/
theorem claim_C4 (verify : String → String → Bool) (users : List User)
    (unX pwX unY pwY unZ pwZ : String) (uY uZ : User)
    (hX : users.find? (fun v => v.username == unX) = none)
    (hY : users.find? (fun v => v.username == unY) = some uY)
    (hvY : verify uY.passwordHash pwY = false)
    (hZ : users.find? (fun v => v.username == unZ) = some uZ)
    (heZ : uZ.enabled = false) :
    userAuthenticate verify users unX pwX = .error .authenticationFailed ∧
    userAuthenticate verify users unY pwY = .error .authenticationFailed ∧
    userAuthenticate verify users unZ pwZ = .error .authenticationFailed ∧
    (∀ usersA unA pwA usersB unB pwB eA eB,
       userAuthenticate verify usersA unA pwA = .error eA →
       userAuthenticate verify usersB unB pwB = .error eB → eA = eB) := by
  refine ⟨?_, ?_, ?_, ?_⟩
  · unfold userAuthenticate
    rw [hX]
  · unfold userAuthenticate
    rw [hY]
    simp [hvY]
  · unfold userAuthenticate
    rw [hZ]
    cases hv : verify uZ.passwordHash pwZ <;> simp [hv, heZ]
  · intro usersA unA pwA usersB unB pwB eA eB hA hB
    rw [userAuthenticate_error_eq verify usersA unA pwA eA hA,
      userAuthenticate_error_eq verify usersB unB pwB eB hB]

/-- Witness for claim C4: an unknown user (carol), a wrong password for
alice, and the disabled bob all receive the identical error value. -/
theorem claim_C4_witness :
    userAuthenticate witnessVerify witnessUsers "carol" "2" =
      .error .authenticationFailed ∧
    userAuthenticate witnessVerify witnessUsers "alice" "2" =
      .error .authenticationFailed ∧
    userAuthenticate witnessVerify witnessUsers "bob" "2" =
      .error .authenticationFailed :=
  let h := claim_C4 witnessVerify witnessUsers "carol" "2" "alice" "2" "bob"
    "2"
    { enabled := true, username := "alice", passwordHash := "h1", attrs := [] }
    { enabled := false, username := "bob", passwordHash := "h2", attrs := [] }
    (by decide) (by decide) (by decide) (by decide) rfl
  ⟨h.1, h.2.1, h.2.2.1⟩

/-- If some entry is missing a username or a password hash, the validation
loop reports it, naming the entry's index. -/
theorem validateEntries_some (i : Nat) (entries : List ConfigUser)
    (h : ∃ u ∈ entries, u.username = "" ∨ u.passwordHash = "") :
    ∃ j u, entries[j]? = some u ∧
      (u.username = "" ∨ u.passwordHash = "") ∧
      (validateEntries i entries = some (validateUsernameMsg (i + j)) ∨
       validateEntries i entries = some (validateHashMsg (i + j))) := by
  induction entries generalizing i with
  | nil =>
    obtain ⟨u, hu, -⟩ := h
    cases hu
  | cons hd tl ih =>
    by_cases h1 : hd.username = ""
    · exact ⟨0, hd, by simp, Or.inl h1, Or.inl (by simp [validateEntries, h1])⟩
    · by_cases h2 : hd.passwordHash = ""
      · exact ⟨0, hd, by simp, Or.inr h2, Or.inr (by simp [validateEntries, h1, h2])⟩
      · have h3 : ∃ u ∈ tl, u.username = "" ∨ u.passwordHash = "" := by
          obtain ⟨u, hu, hoff⟩ := h
          cases hu with
          | head =>
            rcases hoff with hoff | hoff
            · exact absurd hoff h1
            · exact absurd hoff h2
          | tail _ hmem => exact ⟨u, hmem, hoff⟩
        obtain ⟨j, u, hj, hoff, hmsg⟩ := ih (i + 1) h3
        have hstep : validateEntries i (hd :: tl) = validateEntries (i + 1) tl := by
          simp [validateEntries, h1, h2]
        have hidx : i + 1 + j = i + (j + 1) := by omega
        refine ⟨j + 1, u, by simpa using hj, hoff, ?_⟩
        rw [hstep, ← hidx]
        exact hmsg

/-- If every entry has both fields, the validation loop accepts. -/
theorem validateEntries_none (i : Nat) (entries : List ConfigUser)
    (h : ∀ u ∈ entries, u.username ≠ "" ∧ u.passwordHash ≠ "") :
    validateEntries i entries = none := by
  induction entries generalizing i with
  | nil => rfl
  | cons hd tl ih =>
    obtain ⟨h1, h2⟩ := h hd (List.mem_cons_self hd tl)
    rw [validateEntries, if_neg h1, if_neg h2]
    exact ih (i + 1) (fun u hu => h u (List.mem_cons_of_mem hd hu))

/-- Claim C9: `userAuthenticator.Validate` returns a per-field error naming
the offending entry whenever some entry has an empty username or password
hash, returns no error when every entry has both fields, and in the startup
sequence of `main` the configuration validation step runs — and aborts the
process on error — before the password-authenticator factory's `New` step
is ever reached. -/
theorem claim_C9 (c : UserAuthenticatorConfig) (w : MainWorld) :
    ((∃ u ∈ c.entries, u.username = "" ∨ u.passwordHash = "") →
       ∃ j u, c.entries[j]? = some u ∧
         (u.username = "" ∨ u.passwordHash = "") ∧
         (c.validate = some (validateUsernameMsg j) ∨
          c.validate = some (validateHashMsg j))) ∧
    ((∀ u ∈ c.entries, u.username ≠ "" ∧ u.passwordHash ≠ "") →
       c.validate = none) ∧
    (w.validateErr = true →
       Step.newPasswordAuthenticator ∉ mainTrace w) ∧
    (Step.newPasswordAuthenticator ∈ mainTrace w →
       Step.validateConfig ∈ mainTrace w ∧ w.validateErr = false ∧
       (mainTrace w).indexOf Step.validateConfig <
         (mainTrace w).indexOf Step.newPasswordAuthenticator) := by
  have hmain : (w.validateErr = true →
      Step.newPasswordAuthenticator ∉ mainTrace w) ∧
      (Step.newPasswordAuthenticator ∈ mainTrace w →
        Step.validateConfig ∈ mainTrace w ∧ w.validateErr = false ∧
        (mainTrace w).indexOf Step.validateConfig <
          (mainTrace w).indexOf Step.newPasswordAuthenticator) := by
    rcases w with ⟨r, o, d, v, pa, ai, ri, rv, sr, na⟩
    cases r <;> cases o <;> cases d <;> cases v <;> cases pa <;>
      cases ai <;> cases ri <;> cases rv <;> cases sr <;> cases na <;> decide
  refine ⟨?_, ?_, hmain.1, hmain.2⟩
  · intro h
    simpa using validateEntries_some 0 c.entries h
  · intro h
    exact validateEntries_none 0 c.entries h

/-- A configuration whose second entry is missing its password hash. -/
def badConfig : UserAuthenticatorConfig :=
  ⟨[{ enabled := true, username := "alice", passwordHash := "h1",
      attrs := [] },
    { enabled := true, username := "bob", passwordHash := "", attrs := [] }]⟩

/-- A configuration with both fields present in every entry. -/
def goodConfig : UserAuthenticatorConfig :=
  ⟨[{ enabled := true, username := "alice", passwordHash := "h1",
      attrs := [] }]⟩

/-- The world in which configuration validation fails. -/
def validateFailWorld : MainWorld :=
  { realmEmpty := false
    openConfigErr := false
    decodeConfigErr := false
    validateErr := true
    newPasswordAuthenticatorErr := false
    newAccessTokenIssuerErr := false
    newRefreshTokenIssuerErr := false
    isRefreshTokenVerifier := true
    isSubjectRepository := true
    newAuthorizerErr := false }

/-- Witness for claim C9: the bad configuration is reported at entry 1,
the good one accepted, and a failed validation prevents the factory's New
step from running. -/
theorem claim_C9_witness :
    (∃ j u, badConfig.entries[j]? = some u ∧
       (u.username = "" ∨ u.passwordHash = "") ∧
       (badConfig.validate = some (validateUsernameMsg j) ∨
        badConfig.validate = some (validateHashMsg j))) ∧
    goodConfig.validate = none ∧
    Step.newPasswordAuthenticator ∉ mainTrace validateFailWorld :=
  ⟨(claim_C9 badConfig validateFailWorld).1
     ⟨{ enabled := true, username := "bob", passwordHash := "", attrs := [] },
      by decide, Or.inr rfl⟩,
   (claim_C9 goodConfig validateFailWorld).2.1 (by decide),
   (claim_C9 badConfig validateFailWorld).2.2.1 rfl⟩

end RegistryAuth
